import Mathlib

/-!
# Verification of the wink screenplay-rating pipeline

A shallow embedding, in Lean 4, of the scoring, aggregation, segmentation,
advisor, job-queue and version-store logic of the wink service
(`ml_service/app/pipeline.py`, `ml_service/app/what_if.py`,
`ml_service/app/rating_advisor/advisor.py`, `backend/app/services/queue.py`,
`backend/app/services/version_service.py`), together with theorems settling
the specification's claims about that logic.

Numeric scores are embedded as rationals (`ℚ`); Python dictionaries keyed by
the seven fixed content dimensions are embedded as a structure with seven
fields; fallible database code is embedded in `Except`.
-/

namespace Wink

/-- The seven aggregated content-dimension scores handled by the pipeline
(the keys of the score dictionaries in `pipeline.py`). -/
structure ScoreVec where
  violence : ℚ
  gore : ℚ
  sex_act : ℚ
  nudity : ℚ
  profanity : ℚ
  drugs : ℚ
  child_risk : ℚ
deriving DecidableEq, Repr

/-- Result of the rating mapper: the rating label and the list of
human-readable reason strings. -/
structure RatingResult where
  rating : String
  reasons : List String
deriving DecidableEq, Repr

/-- Embedding of `RatingPipeline.map_scores_to_rating`
(`ml_service/app/pipeline.py`, lines 238-261): a top-down `if`/`elif`
cascade over the aggregated scores; the first matching rule fixes the
rating and appends its reason tag, and the defaults `rating = "6+"`,
`reasons = []` survive when no rule matches. -/
def map_scores_to_rating (agg : ScoreVec) : RatingResult :=
  if agg.sex_act ≥ 0.8 ∨ agg.gore ≥ 0.8 then
    ⟨"18+", ["explicit sexual or violent content"]⟩
  else if agg.child_risk > 0.5 ∧ (agg.sex_act ≥ 0.5 ∨ agg.violence ≥ 0.5) then
    ⟨"18+", ["violence or sexual content involving minors"]⟩
  else if agg.violence ≥ 0.4 ∨ agg.gore ≥ 0.4 then
    ⟨"16+", ["explicit violence or murder"]⟩
  else if agg.profanity ≥ 0.5 ∨ agg.drugs ≥ 0.4 ∨ agg.nudity ≥ 0.3 then
    ⟨"12+", ["moderate language, alcohol/tobacco, mild nudity"]⟩
  else if agg.violence ≥ 0.3 then
    ⟨"12+", ["moderate violence or threats"]⟩
  else
    ⟨"6+", []⟩

/-- A cascade rule as the specification states it: a decidable guard on the
score vector, the rating it assigns, and its human-readable reason tag. -/
structure CascadeRule where
  guard : ScoreVec → Bool
  rating : String
  tag : String

/-- First-match-wins evaluation of a rule list, defaulting to `6+` with no
reasons, exactly as the specification's "first match wins, tested top-down"
wording prescribes. -/
def firstMatch : List CascadeRule → ScoreVec → RatingResult
  | [], _ => ⟨"6+", []⟩
  | r :: rest, a => if r.guard a then ⟨r.rating, [r.tag]⟩ else firstMatch rest a

/-- The specification's rating cascade, rule by rule, in the order the
claim lists them. -/
def cascadeRules : List CascadeRule :=
  [ ⟨fun a => decide (a.sex_act ≥ 0.8) || decide (a.gore ≥ 0.8), "18+",
      "explicit sexual or violent content"⟩,
    ⟨fun a => decide (a.child_risk > 0.5) &&
        (decide (a.sex_act ≥ 0.5) || decide (a.violence ≥ 0.5)), "18+",
      "violence or sexual content involving minors"⟩,
    ⟨fun a => decide (a.violence ≥ 0.4) || decide (a.gore ≥ 0.4), "16+",
      "explicit violence or murder"⟩,
    ⟨fun a => decide (a.profanity ≥ 0.5) || (decide (a.drugs ≥ 0.4) ||
        decide (a.nudity ≥ 0.3)), "12+",
      "moderate language, alcohol/tobacco, mild nudity"⟩,
    ⟨fun a => decide (a.violence ≥ 0.3), "12+",
      "moderate violence or threats"⟩ ]

/-- Rank of a rating label in the ordered scale `0+ < 6+ < 12+ < 16+ < 18+`. -/
def ratingRank (r : String) : ℕ :=
  if r = "0+" then 0
  else if r = "6+" then 1
  else if r = "12+" then 2
  else if r = "16+" then 3
  else 4

theorem ratingRank_zero : ratingRank "0+" = 0 := rfl

theorem ratingRank_six : ratingRank "6+" = 1 := rfl

theorem ratingRank_twelve : ratingRank "12+" = 2 := rfl

theorem ratingRank_sixteen : ratingRank "16+" = 3 := rfl

theorem ratingRank_eighteen : ratingRank "18+" = 4 := rfl

/-- The ratings the response schema admits
(`ml_service/app/schemas.py`, `ScriptRatingResponse.predicted_rating`,
pattern `^(0\+|6\+|12\+|16\+|18\+)$`). -/
def schemaAllowedRatings : List String := ["0+", "6+", "12+", "16+", "18+"]

/-- C3: for every 7-dimension aggregated score vector the rating mapper of
`pipeline.py` returns the result of the first matching rule of the
specification's cascade, tested top-down, with the matched rule's
human-readable tag as the reasons list (and `6+` with no reasons when no
rule matches). -/
theorem map_scores_to_rating_eq_cascade (agg : ScoreVec) :
    map_scores_to_rating agg = firstMatch cascadeRules agg := by
  simp only [map_scores_to_rating, firstMatch, cascadeRules, Bool.or_eq_true,
    Bool.and_eq_true, decide_eq_true_eq]

set_option maxHeartbeats 2000000 in
/-- C6: the rating mapper is a (total) function of the seven scores and is
monotone: pointwise lower scores never yield a strictly stricter rating in
the order `0+ < 6+ < 12+ < 16+ < 18+`. -/
theorem map_scores_to_rating_monotone (a b : ScoreVec)
    (h1 : a.violence ≤ b.violence) (h2 : a.gore ≤ b.gore)
    (h3 : a.sex_act ≤ b.sex_act) (h4 : a.nudity ≤ b.nudity)
    (h5 : a.profanity ≤ b.profanity) (h6 : a.drugs ≤ b.drugs)
    (h7 : a.child_risk ≤ b.child_risk) :
    ratingRank (map_scores_to_rating a).rating ≤
      ratingRank (map_scores_to_rating b).rating := by
  unfold map_scores_to_rating
  split_ifs <;>
    simp only [not_and_or, not_or, not_le, not_lt, ge_iff_le, gt_iff_lt,
      ratingRank_zero, ratingRank_six, ratingRank_twelve, ratingRank_sixteen,
      ratingRank_eighteen] at * <;>
    casesm* _ ∨ _, _ ∧ _ <;> linarith

/-- Witness for C6 at a concrete pair of score vectors. -/
theorem map_scores_to_rating_monotone_witness :
    ratingRank (map_scores_to_rating ⟨0, 0, 0, 0, 0, 0, 0⟩).rating ≤
      ratingRank (map_scores_to_rating ⟨1, 1, 1, 1, 1, 1, 1⟩).rating :=
  map_scores_to_rating_monotone ⟨0, 0, 0, 0, 0, 0, 0⟩ ⟨1, 1, 1, 1, 1, 1, 1⟩
    (by norm_num) (by norm_num) (by norm_num) (by norm_num) (by norm_num)
    (by norm_num) (by norm_num)

/-- C10: the rating mapper's output always lies in `{6+, 12+, 16+, 18+}` —
`0+`, although in the schema's allowed set, is never produced — and the
reasons list is empty exactly when the default `6+` rating is returned. -/
theorem map_scores_to_rating_range (agg : ScoreVec) :
    (map_scores_to_rating agg).rating ∈ ["6+", "12+", "16+", "18+"] ∧
    (map_scores_to_rating agg).rating ∈ schemaAllowedRatings ∧
    (map_scores_to_rating agg).rating ≠ "0+" ∧
    ((map_scores_to_rating agg).reasons = [] ↔
      (map_scores_to_rating agg).rating = "6+") := by
  unfold map_scores_to_rating
  split_ifs <;> simp [schemaAllowedRatings]

/-! ## Aggregation of per-scene scores (claim C1)

`RatingPipeline.analyze_script` (`pipeline.py`, lines 284-287) reduces the
per-scene normalized scores with `np.percentile(values, 90)` for *every*
dimension, while `WhatIfAnalyzer._analyze_script` (`what_if.py`, lines
410-423) uses a max/percentile hybrid.  `np.percentile` is embedded with
numpy's default linear interpolation over the ascending sort. -/

/-- Insert a rational into an ascending-sorted list. -/
def insertAsc (x : ℚ) : List ℚ → List ℚ
  | [] => [x]
  | y :: ys => if x ≤ y then x :: y :: ys else y :: insertAsc x ys

/-- Ascending insertion sort, modelling numpy's internal sort. -/
def sortAsc : List ℚ → List ℚ
  | [] => []
  | x :: xs => insertAsc x (sortAsc xs)

/-- `numpy.percentile(values, q)` with the default linear interpolation:
on the ascending sort `v` of length `n`, the virtual rank is
`q·(n-1)/100`; the result interpolates between the floor and ceiling
entries.  (numpy raises on an empty input; the embedding returns `0`
there, a case never reached by the pipeline, which always has at least
one scene.)  `Rat.floor` is the floor function on `ℚ`
(`Rat.floor_def : ⌊q⌋ = q.num / q.den`). -/
def percentile (values : List ℚ) (q : ℚ) : ℚ :=
  let v := sortAsc values
  let n := v.length
  let rank := q * ((n : ℚ) - 1) / 100
  let i := (Rat.floor rank).toNat
  let frac := rank - (i : ℚ)
  v.getD i 0 + frac * (v.getD (i + 1) 0 - v.getD i 0)

/-- `numpy.max` over a list (numpy raises on an empty input; the embedding
returns `0` there, a case never reached by the pipeline). -/
def listMax : List ℚ → ℚ
  | [] => 0
  | x :: xs => xs.foldl max x

/-- Embedding of the aggregation step of `RatingPipeline.analyze_script`
(`pipeline.py`, lines 284-287): the 90th percentile of the per-scene
values for **every** dimension. -/
def analyze_script_agg (scores : List ScoreVec) : ScoreVec where
  violence := percentile (scores.map (·.violence)) 90
  gore := percentile (scores.map (·.gore)) 90
  sex_act := percentile (scores.map (·.sex_act)) 90
  nudity := percentile (scores.map (·.nudity)) 90
  profanity := percentile (scores.map (·.profanity)) 90
  drugs := percentile (scores.map (·.drugs)) 90
  child_risk := percentile (scores.map (·.child_risk)) 90

/-- Embedding of the per-dimension branch of the aggregation loop of
`WhatIfAnalyzer._analyze_script` (`what_if.py`, lines 412-423), keyed by
the dimension name exactly as the source tests `k in [...]`. -/
def whatIfAggOne (k : String) (values : List ℚ) : ℚ :=
  let max_val := listMax values
  let p95_val := percentile values 95
  let p90_val := percentile values 90
  if k = "violence" ∨ k = "gore" then max_val * 0.7 + p95_val * 0.3
  else if k = "sex_act" ∨ k = "nudity" ∨ k = "child_risk" then
    max_val * 0.85 + p90_val * 0.15
  else percentile values 90

/-- Embedding of the aggregation of `WhatIfAnalyzer._analyze_script`: the
per-dimension loop applied to each of the seven score keys. -/
def what_if_agg (scores : List ScoreVec) : ScoreVec where
  violence := whatIfAggOne "violence" (scores.map (·.violence))
  gore := whatIfAggOne "gore" (scores.map (·.gore))
  sex_act := whatIfAggOne "sex_act" (scores.map (·.sex_act))
  nudity := whatIfAggOne "nudity" (scores.map (·.nudity))
  profanity := whatIfAggOne "profanity" (scores.map (·.profanity))
  drugs := whatIfAggOne "drugs" (scores.map (·.drugs))
  child_risk := whatIfAggOne "child_risk" (scores.map (·.child_risk))

/-- The hybrid aggregation table exactly as the claim states it:
`0.7·max + 0.3·p95` for violence and gore, `0.85·max + 0.15·p90` for
sex_act, nudity and child_risk, and `p90` alone for profanity and drugs. -/
def hybridAggSpec (scores : List ScoreVec) : ScoreVec where
  violence := 0.7 * listMax (scores.map (·.violence)) +
    0.3 * percentile (scores.map (·.violence)) 95
  gore := 0.7 * listMax (scores.map (·.gore)) +
    0.3 * percentile (scores.map (·.gore)) 95
  sex_act := 0.85 * listMax (scores.map (·.sex_act)) +
    0.15 * percentile (scores.map (·.sex_act)) 90
  nudity := 0.85 * listMax (scores.map (·.nudity)) +
    0.15 * percentile (scores.map (·.nudity)) 90
  profanity := percentile (scores.map (·.profanity)) 90
  drugs := percentile (scores.map (·.drugs)) 90
  child_risk := 0.85 * listMax (scores.map (·.child_risk)) +
    0.15 * percentile (scores.map (·.child_risk)) 90

/-- The 90th percentile applied uniformly to every dimension — the
aggregator the rating surface actually uses. -/
def p90AggSpec (scores : List ScoreVec) : ScoreVec where
  violence := percentile (scores.map (·.violence)) 90
  gore := percentile (scores.map (·.gore)) 90
  sex_act := percentile (scores.map (·.sex_act)) 90
  nudity := percentile (scores.map (·.nudity)) 90
  profanity := percentile (scores.map (·.profanity)) 90
  drugs := percentile (scores.map (·.drugs)) 90
  child_risk := percentile (scores.map (·.child_risk)) 90

/-- Two normalized scene-score vectors on which p90 and the hybrid differ. -/
def aggCexScores : List ScoreVec :=
  [⟨0, 0, 0, 0, 0, 0, 0⟩, ⟨1, 1, 1, 1, 1, 1, 1⟩]

theorem whatIfAggOne_violence (vs : List ℚ) :
    whatIfAggOne "violence" vs = 0.7 * listMax vs + 0.3 * percentile vs 95 := by
  simp [whatIfAggOne]; ring

theorem whatIfAggOne_gore (vs : List ℚ) :
    whatIfAggOne "gore" vs = 0.7 * listMax vs + 0.3 * percentile vs 95 := by
  simp [whatIfAggOne]; ring

theorem whatIfAggOne_sex_act (vs : List ℚ) :
    whatIfAggOne "sex_act" vs = 0.85 * listMax vs + 0.15 * percentile vs 90 := by
  simp [whatIfAggOne]; ring

theorem whatIfAggOne_nudity (vs : List ℚ) :
    whatIfAggOne "nudity" vs = 0.85 * listMax vs + 0.15 * percentile vs 90 := by
  simp [whatIfAggOne]; ring

theorem whatIfAggOne_child_risk (vs : List ℚ) :
    whatIfAggOne "child_risk" vs = 0.85 * listMax vs + 0.15 * percentile vs 90 := by
  simp [whatIfAggOne]; ring

theorem whatIfAggOne_profanity (vs : List ℚ) :
    whatIfAggOne "profanity" vs = percentile vs 90 := by
  simp [whatIfAggOne]

theorem whatIfAggOne_drugs (vs : List ℚ) :
    whatIfAggOne "drugs" vs = percentile vs 90 := by
  simp [whatIfAggOne]

theorem ratFloor_floor (q : ℚ) : Rat.floor q = ⌊q⌋ := rfl

theorem percentile_cex_90 : percentile [(0 : ℚ), 1] 90 = 9 / 10 := by
  norm_num [percentile, sortAsc, insertAsc, ratFloor_floor, List.getD]

theorem percentile_cex_95 : percentile [(0 : ℚ), 1] 95 = 19 / 20 := by
  norm_num [percentile, sortAsc, insertAsc, ratFloor_floor, List.getD]

theorem listMax_cex : listMax [(0 : ℚ), 1] = 1 := by
  norm_num [listMax, List.foldl, max_def]

theorem aggCex_violence_map : aggCexScores.map (·.violence) = [(0 : ℚ), 1] := rfl

/-- C1 counterexample: on the concrete scene scores `[0, 1]` the rating
pipeline's aggregator (`analyze_script`) yields `p90 = 0.9` for violence,
not the hybrid `0.7·max + 0.3·p95 = 0.985` the claim requires of every
scoring surface — so the rating surface does not use the hybrid table. -/
theorem analyze_script_agg_is_not_hybrid :
    (analyze_script_agg aggCexScores).violence = 9 / 10 ∧
    (hybridAggSpec aggCexScores).violence = 197 / 200 ∧
    analyze_script_agg aggCexScores ≠ hybridAggSpec aggCexScores := by
  have h1 : (analyze_script_agg aggCexScores).violence = 9 / 10 := by
    show percentile (aggCexScores.map (·.violence)) 90 = 9 / 10
    rw [aggCex_violence_map, percentile_cex_90]
  have h2 : (hybridAggSpec aggCexScores).violence = 197 / 200 := by
    show 0.7 * listMax (aggCexScores.map (·.violence)) +
      0.3 * percentile (aggCexScores.map (·.violence)) 95 = 197 / 200
    rw [aggCex_violence_map, percentile_cex_95, listMax_cex]
    norm_num
  refine ⟨h1, h2, fun h => ?_⟩
  have := congrArg ScoreVec.violence h
  rw [h1, h2] at this
  norm_num at this

/-- C1 (amended): the what-if surface aggregates per the hybrid table
(`0.7·max + 0.3·p95` for violence/gore, `0.85·max + 0.15·p90` for
sex_act/nudity/child_risk, `p90` for profanity/drugs), while the rating
surface (`analyze_script`) aggregates every dimension with the plain 90th
percentile. -/
theorem agg_surfaces_characterization (scores : List ScoreVec)
    (_h : scores ≠ []) :
    what_if_agg scores = hybridAggSpec scores ∧
    analyze_script_agg scores = p90AggSpec scores := by
  refine ⟨?_, rfl⟩
  unfold what_if_agg hybridAggSpec
  rw [whatIfAggOne_violence, whatIfAggOne_gore, whatIfAggOne_sex_act,
    whatIfAggOne_nudity, whatIfAggOne_child_risk, whatIfAggOne_profanity,
    whatIfAggOne_drugs]

/-- Witness for C1 (amended) at the concrete scene-score list. -/
theorem agg_surfaces_characterization_witness :
    what_if_agg aggCexScores = hybridAggSpec aggCexScores ∧
    analyze_script_agg aggCexScores = p90AggSpec aggCexScores :=
  agg_surfaces_characterization aggCexScores (by simp [aggCexScores])

/-! ## Advisor effort estimate (claim C9) -/

/-- The severity tag of a problem scene — the only field of `SceneIssue`
that `RatingAdvisor._estimate_effort` reads. -/
structure SceneIssueTag where
  severity : String
deriving DecidableEq, Repr

/-- The priority tag of a rating gap — the only field of `RatingGap` that
`RatingAdvisor._estimate_effort` reads. -/
structure RatingGapTag where
  priority : String
deriving DecidableEq, Repr

/-- Embedding of `RatingAdvisor._estimate_effort`
(`ml_service/app/rating_advisor/advisor.py`, lines 404-418).  The
`critical_gaps` counter counts gaps whose priority is `critical` **or**
`high` (`g.priority in ["critical", "high"]`). -/
def estimate_effort (scenes : List SceneIssueTag) (gaps : List RatingGapTag) :
    String :=
  let critical_count := (scenes.filter (fun s => s.severity == "critical")).length
  let high_count := (scenes.filter (fun s => s.severity == "high")).length
  let critical_gaps :=
    (gaps.filter (fun g => g.priority == "critical" || g.priority == "high")).length
  let total_score := critical_count * 3 + high_count * 2 + critical_gaps * 2
  if total_score > 15 then "extensive"
  else if total_score > 10 then "significant"
  else if total_score > 5 then "moderate"
  else "minimal"

/-- The effort bucketing exactly as claim C9 states it: the gap term
counts only gaps with priority `critical`. -/
def effortClaimFormula (scenes : List SceneIssueTag) (gaps : List RatingGapTag) :
    String :=
  let score := 3 * scenes.countP (fun s => s.severity == "critical") +
    2 * scenes.countP (fun s => s.severity == "high") +
    2 * gaps.countP (fun g => g.priority == "critical")
  if score > 15 then "extensive"
  else if score > 10 then "significant"
  else if score > 5 then "moderate"
  else "minimal"

/-- The effort bucketing with the gap term amended to count gaps with
priority `critical` or `high`, as the code does. -/
def effortAmendedFormula (scenes : List SceneIssueTag) (gaps : List RatingGapTag) :
    String :=
  let score := 3 * scenes.countP (fun s => s.severity == "critical") +
    2 * scenes.countP (fun s => s.severity == "high") +
    2 * gaps.countP (fun g => g.priority == "critical" || g.priority == "high")
  if score > 15 then "extensive"
  else if score > 10 then "significant"
  else if score > 5 then "moderate"
  else "minimal"

/-- Three rating gaps of priority `high` and no problem scenes. -/
def threeHighGaps : List RatingGapTag := [⟨"high"⟩, ⟨"high"⟩, ⟨"high"⟩]

/-- C9 counterexample: with no problem scenes and three gaps of priority
`high`, the advisor reports `moderate` effort (score `2·3 = 6 > 5`), while
the claim's formula — which counts only `critical` gaps — yields score `0`
and hence `minimal`. -/
theorem estimate_effort_counts_high_gaps :
    estimate_effort [] threeHighGaps = "moderate" ∧
    effortClaimFormula [] threeHighGaps = "minimal" ∧
    estimate_effort [] threeHighGaps ≠ effortClaimFormula [] threeHighGaps := by
  decide

/-- C9 (amended): the estimated effort equals the bucket of
`3·(critical scenes) + 2·(high scenes) + 2·(gaps with priority critical or
high)`: `extensive` above 15, `significant` above 10, `moderate` above 5,
else `minimal`. -/
theorem estimate_effort_eq_amended (scenes : List SceneIssueTag)
    (gaps : List RatingGapTag) :
    estimate_effort scenes gaps = effortAmendedFormula scenes gaps := by
  have key : ∀ a b c : ℕ, a * 3 + b * 2 + c * 2 = 3 * a + 2 * b + 2 * c := by
    intros; ring
  simp only [estimate_effort, effortAmendedFormula,
    List.countP_eq_length_filter, key]

/-! ## Job queue (claim C2) -/

/-- arq job states, as `queue.py` maps them. -/
inductive JobState where
  | queued
  | deferred
  | in_progress
  | complete
  | not_found
deriving DecidableEq, Repr

/-- A rating job held by the queue backend. -/
structure Job where
  job_id : ℕ
  script_id : ℤ
  status : JobState
deriving DecidableEq, Repr

/-- The queue backend's state: its jobs plus a fresh-id source.  arq
generates a fresh random uuid when — as in `enqueue_rating_job` — no
explicit job id is passed; freshness is modelled by a counter strictly
above every issued id. -/
structure QueuePool where
  jobs : List Job
  next_id : ℕ
deriving DecidableEq, Repr

/-- Embedding of `enqueue_rating_job` (`backend/app/services/queue.py`,
lines 16-23): it unconditionally calls `pool.enqueue_job` — with no job-id
argument and no lookup of existing jobs — so a brand-new queued job is
created and its fresh id returned, whatever jobs already exist. -/
def enqueue_rating_job (pool : QueuePool) (script_id : ℤ) : QueuePool × ℕ :=
  (⟨pool.jobs ++ [⟨pool.next_id, script_id, JobState.queued⟩], pool.next_id + 1⟩,
    pool.next_id)

/-- A job is active when queued or in progress. -/
def isActive (j : Job) : Bool :=
  j.status == JobState.queued || j.status == JobState.in_progress

/-- The active jobs a pool holds for one script. -/
def activeJobsFor (pool : QueuePool) (sid : ℤ) : List Job :=
  pool.jobs.filter (fun j => isActive j && j.script_id == sid)

/-- A pool already holding one active (queued) rating job, id 0, for
script 42. -/
def poolWithActiveJob : QueuePool := ⟨[⟨0, 42, JobState.queued⟩], 1⟩

/-- C2 counterexample: with an active job (id 0) for script 42 already
present, `enqueue_rating_job` returns a different, fresh id, and the pool
ends up holding two active jobs for script 42 — the code neither returns
the existing job's id nor refrains from enqueuing a second job. -/
theorem enqueue_rating_job_not_single_flight :
    (enqueue_rating_job poolWithActiveJob 42).2 ≠ 0 ∧
    (activeJobsFor (enqueue_rating_job poolWithActiveJob 42).1 42).length = 2 := by
  decide

/-- C2 (amended): `enqueue_rating_job` performs no single-flight
deduplication: whatever the pool holds — even an active job for the same
script — it appends exactly one new queued job carrying a fresh id
distinct from every existing job's id, returns that fresh id, and the
count of active jobs for the script grows by one. -/
theorem enqueue_rating_job_always_enqueues (pool : QueuePool) (sid : ℤ)
    (hfresh : ∀ j ∈ pool.jobs, j.job_id < pool.next_id) :
    (enqueue_rating_job pool sid).2 = pool.next_id ∧
    (∀ j ∈ pool.jobs, j.job_id ≠ (enqueue_rating_job pool sid).2) ∧
    (enqueue_rating_job pool sid).1.jobs =
      pool.jobs ++ [⟨pool.next_id, sid, JobState.queued⟩] ∧
    (activeJobsFor (enqueue_rating_job pool sid).1 sid).length =
      (activeJobsFor pool sid).length + 1 := by
  refine ⟨rfl, ?_, rfl, ?_⟩
  · intro j hj
    exact Nat.ne_of_lt (hfresh j hj)
  · unfold activeJobsFor enqueue_rating_job
    rw [List.filter_append]
    simp [isActive]

/-- Witness for C2 (amended) at the concrete one-job pool. -/
theorem enqueue_rating_job_always_enqueues_witness :
    (enqueue_rating_job poolWithActiveJob 42).2 = poolWithActiveJob.next_id :=
  (enqueue_rating_job_always_enqueues poolWithActiveJob 42 (by decide)).1

/-! ## Feature extraction and score normalization (claim C8)

`scene_feature_vector` counts lexicon-regex matches with `count_matches`
(each count the length of a `findall` result, hence a natural number) and
then modulates them.  The counts are taken as parameters of the embedding;
everything downstream of them — the gore substring counting, the heroic
dampener, the visceral gate, the psychological-violence fold-in, the word
count, and the normalization table — is embedded from the source. -/

/-- Python whitespace (the ASCII part), as used by `str.split` and
`str.strip`. -/
def isPyWs (c : Char) : Bool :=
  c = ' ' || c = '\t' || c = '\n' || c = '\r' || c = '\x0b' || c = '\x0c'

/-- ASCII lowercasing, as `str.lower` acts on the script texts here. -/
def toLowerChar (c : Char) : Char :=
  if 'A' ≤ c ∧ c ≤ 'Z' then Char.ofNat (c.toNat + 32) else c

/-- Substring containment — Python's `needle in hay`: the needle is a
prefix of some suffix of the haystack. -/
def containsSub : List Char → List Char → Bool
  | needle, [] => needle.isEmpty
  | needle, c :: rest => needle.isPrefixOf (c :: rest) || containsSub needle rest

/-- `GORE_STRICT` (`pipeline.py`, lines 101-117). -/
def GORE_STRICT : List String :=
  ["blood", "bloody", "bloodied", "bleeding", "corpse", "wound", "scar",
   "injur", "crash", "burn", "explod", "guts", "entrails", "brain",
   "dead body"]

/-- `GORE_EXCLUDE` (`pipeline.py`, lines 119-125). -/
def GORE_EXCLUDE : List String :=
  ["blood oath", "black ink", "blackened tongue", "ink dribbl", "ink is now"]

/-- `HEROIC_KEYWORDS` (`pipeline.py`, lines 187-204). -/
def HEROIC_KEYWORDS : List String :=
  ["superman", "batman", "wonder woman", "lex luthor", "krypton",
   "metropolis", "hero", "villain", "save", "rescue", "laser", "fly",
   "power", "superpower", "comic", "adventure"]

/-- The gore counter (`pipeline.py`, lines 182-185): one per strict keyword
contained in the scene, suppressed entirely when any exclusion substring is
present. -/
def goreCount (txt : List Char) : ℕ :=
  (GORE_STRICT.filter (fun g =>
    containsSub g.toList txt &&
      !(GORE_EXCLUDE.any (fun ex => containsSub ex.toList txt)))).length

/-- The heroic-fiction dampener test (`pipeline.py`, line 205). -/
def heroicPresent (txt : List Char) : Bool :=
  HEROIC_KEYWORDS.any (fun w => containsSub w.toList txt)

/-- Python word characters (`\w`, ASCII part). -/
def isWordChar (c : Char) : Bool :=
  decide ('a' ≤ c ∧ c ≤ 'z') || decide ('A' ≤ c ∧ c ≤ 'Z') ||
    decide ('0' ≤ c ∧ c ≤ '9') || decide (c = '_')

/-- Does the literal word `w` match at the head of `l`, with `prev` the
character just before this position (`none` at the start of the text), and
word boundaries on both sides? -/
def matchHere (w : List Char) (prev : Option Char) (l : List Char) : Bool :=
  w.isPrefixOf l &&
    (match prev with
     | none => true
     | some c => !isWordChar c) &&
    (match l.drop w.length with
     | [] => true
     | c :: _ => !isWordChar c)

/-- Scan `l` for a word-bounded occurrence of `w`, remembering the
previous character. -/
def hasWordAux (w : List Char) : Option Char → List Char → Bool
  | prev, [] => matchHere w prev []
  | prev, c :: rest => matchHere w prev (c :: rest) || hasWordAux w (some c) rest

/-- `re.search` of `\bw\b` for a literal word `w`. -/
def hasBoundedWord (w : List Char) (txt : List Char) : Bool :=
  hasWordAux w none txt

/-- The visceral-evidence words of the regex at `pipeline.py`, line 209. -/
def VISCERAL_WORDS : List String :=
  ["blood", "gore", "corpse", "bleeding", "wound", "pain", "scream"]

/-- The visceral-evidence gate:
`re.search(r"\b(blood|gore|corpse|bleeding|wound|pain|scream)\b", txt)`. -/
def visceralPresent (txt : List Char) : Bool :=
  VISCERAL_WORDS.any (fun w => hasBoundedWord w.toList txt)

/-- Count whitespace-separated tokens; the flag records whether the scan
is inside a token. -/
def wordCountAux : Bool → List Char → ℕ
  | _, [] => 0
  | inw, c :: rest =>
    if isPyWs c then wordCountAux false rest
    else (if inw then 0 else 1) + wordCountAux true rest

/-- `len(txt.split())`: the number of whitespace-separated words. -/
def wordCount (l : List Char) : ℕ := wordCountAux false l

/-- The raw regex-lexicon counters of `scene_feature_vector`
(`pipeline.py`, lines 170-180): the `count_matches` results over the
psychological-violence, violence, profanity, drugs, child-mention, nudity
and sex-act pattern lists.  Each is the length of a `findall` list and
hence a natural number. -/
structure RawCounts where
  psych : ℕ
  violence : ℕ
  profanity : ℕ
  drugs : ℕ
  child_mentions : ℕ
  nudity : ℕ
  sex_act : ℕ
deriving DecidableEq, Repr

/-- The raw feature vector returned by `scene_feature_vector`. -/
structure Features where
  violence : ℚ
  gore : ℚ
  sex_act : ℚ
  nudity : ℚ
  profanity : ℚ
  drugs : ℚ
  child_mentions : ℚ
  length : ℚ
deriving DecidableEq, Repr

/-- Embedding of `RatingPipeline.scene_feature_vector` (`pipeline.py`,
lines 167-223) downstream of the regex counters: the text is lowercased;
gore is counted by substring containment with exclusions; the heroic
dampener multiplies violence by 0.6; the visceral gate multiplies a
positive violence count by 0.7 when no visceral word occurs; half the
psychological-violence counter is folded into violence; `length` is the
word count floored at 1. -/
def scene_feature_vector (counts : RawCounts) (scene_text : List Char) :
    Features :=
  let txt := scene_text.map toLowerChar
  let gore : ℕ := goreCount txt
  let violence0 : ℚ := counts.violence
  let violence1 : ℚ := if heroicPresent txt then violence0 * 0.6 else violence0
  let violence2 : ℚ :=
    if violence1 > 0 ∧ visceralPresent txt = false then violence1 * 0.7
    else violence1
  let length : ℕ := max 1 (wordCount txt)
  { violence := violence2 + (counts.psych : ℚ) * 0.5,
    gore := gore, sex_act := counts.sex_act, nudity := counts.nudity,
    profanity := counts.profanity, drugs := counts.drugs,
    child_mentions := counts.child_mentions, length := length }

/-- Embedding of `RatingPipeline.normalize_scene_scores` (`pipeline.py`,
lines 225-236): `min(1, raw/denominator)` per the fixed table. -/
def normalize_scene_scores (f : Features) : ScoreVec :=
  { violence := min 1 (f.violence / (f.length / 150)),
    gore := min 1 (f.gore / 2),
    sex_act := min 1 f.sex_act,
    nudity := min 1 (f.nudity / 3),
    profanity := min 1 (f.profanity / 5),
    drugs := min 1 (f.drugs / 5),
    child_risk := min 1 (f.child_mentions / 3) }

/-- Membership in the closed unit interval. -/
def inUnitInterval (x : ℚ) : Prop := 0 ≤ x ∧ x ≤ 1

theorem min_one_mem_unit {x : ℚ} (hx : 0 ≤ x) : inUnitInterval (min 1 x) :=
  ⟨le_min (by norm_num) hx, min_le_left 1 x⟩

theorem min_one_div_mem_unit {x d : ℚ} (hx : 0 ≤ x) (hd : 0 < d) :
    inUnitInterval (min 1 (x / d)) :=
  min_one_mem_unit (div_nonneg hx hd.le)

/-- Every component of the feature vector is nonnegative and its `length`
is at least 1, for every value of the regex counters and every scene
text. -/
theorem scene_feature_vector_nonneg (counts : RawCounts) (txt : List Char) :
    0 ≤ (scene_feature_vector counts txt).violence ∧
    0 ≤ (scene_feature_vector counts txt).gore ∧
    0 ≤ (scene_feature_vector counts txt).sex_act ∧
    0 ≤ (scene_feature_vector counts txt).nudity ∧
    0 ≤ (scene_feature_vector counts txt).profanity ∧
    0 ≤ (scene_feature_vector counts txt).drugs ∧
    0 ≤ (scene_feature_vector counts txt).child_mentions ∧
    1 ≤ (scene_feature_vector counts txt).length := by
  unfold scene_feature_vector
  refine ⟨?_, ?_, ?_, ?_, ?_, ?_, ?_, ?_⟩ <;> simp only []
  · split_ifs <;> positivity
  · positivity
  · positivity
  · positivity
  · positivity
  · positivity
  · positivity
  · exact_mod_cast Nat.le_max_left 1 (wordCount (txt.map toLowerChar))

/-- C8: for every value of the regex counters (in particular the actual
ones, which are `findall` lengths) and every scene text, feature
extraction followed by score normalization yields seven scores that all
lie in `[0, 1]`. -/
theorem normalized_scene_scores_in_unit (counts : RawCounts) (txt : List Char) :
    inUnitInterval (normalize_scene_scores (scene_feature_vector counts txt)).violence ∧
    inUnitInterval (normalize_scene_scores (scene_feature_vector counts txt)).gore ∧
    inUnitInterval (normalize_scene_scores (scene_feature_vector counts txt)).sex_act ∧
    inUnitInterval (normalize_scene_scores (scene_feature_vector counts txt)).nudity ∧
    inUnitInterval (normalize_scene_scores (scene_feature_vector counts txt)).profanity ∧
    inUnitInterval (normalize_scene_scores (scene_feature_vector counts txt)).drugs ∧
    inUnitInterval (normalize_scene_scores (scene_feature_vector counts txt)).child_risk := by
  obtain ⟨hv, hg, hs, hn, hp, hd, hc, hl⟩ := scene_feature_vector_nonneg counts txt
  have hlpos : 0 < (scene_feature_vector counts txt).length / 150 := by
    apply div_pos (lt_of_lt_of_le one_pos hl)
    norm_num
  exact ⟨min_one_div_mem_unit hv hlpos,
    min_one_div_mem_unit hg (by norm_num),
    min_one_mem_unit hs,
    min_one_div_mem_unit hn (by norm_num),
    min_one_div_mem_unit hp (by norm_num),
    min_one_div_mem_unit hd (by norm_num),
    min_one_div_mem_unit hc (by norm_num)⟩

/-! ## Script version store (claims C4 and C5)

`VersionService` (`backend/app/services/version_service.py`) runs
SQLAlchemy queries; the embedding models the database as explicit record
lists and a query's `scalar_one_or_none()` faithfully: it returns the lone
row, `none` on no rows, and **raises `MultipleResultsFound` on more than
one row** — which matters, because `create_version` calls it on a query
selecting *all* versions of the script (ordered by number, descending). -/

/-- A row of the `scripts` table (the fields `VersionService` touches). -/
structure ScriptRec where
  id : ℤ
  title : String
  content : String
  predicted_rating : String
  agg_scores : List (String × ℚ)
  total_scenes : ℕ
  model_version : String
  current_version : ℕ
deriving DecidableEq, Repr

/-- A row of the `scenes` table. -/
structure SceneRec where
  script_id : ℤ
  scene_id : ℕ
  heading : String
  violence : ℚ
  gore : ℚ
  sex_act : ℚ
  nudity : ℚ
  profanity : ℚ
  drugs : ℚ
  child_risk : ℚ
  weight : ℚ
  sample_text : String
deriving DecidableEq, Repr

/-- A serialized scene snapshot as `create_version` builds it
(the dictionary at `version_service.py`, lines 36-51). -/
structure SceneData where
  scene_id : ℕ
  heading : String
  violence : ℚ
  gore : ℚ
  sex_act : ℚ
  nudity : ℚ
  profanity : ℚ
  drugs : ℚ
  child_risk : ℚ
  weight : ℚ
  sample_text : String
deriving DecidableEq, Repr

/-- The snapshot of one scene row. -/
def sceneToData (sc : SceneRec) : SceneData :=
  { scene_id := sc.scene_id, heading := sc.heading, violence := sc.violence,
    gore := sc.gore, sex_act := sc.sex_act, nudity := sc.nudity,
    profanity := sc.profanity, drugs := sc.drugs, child_risk := sc.child_risk,
    weight := sc.weight, sample_text := sc.sample_text }

/-- The metadata blob `create_version` attaches. -/
structure VersionMeta where
  model_version : String
  created_from : String
deriving DecidableEq, Repr

/-- A row of the `script_versions` table. -/
structure VersionRec where
  script_id : ℤ
  version_number : ℕ
  title : String
  content : String
  predicted_rating : String
  agg_scores : List (String × ℚ)
  total_scenes : ℕ
  change_description : Option String
  is_current : Bool
  scenes_data : List SceneData
  version_metadata : VersionMeta
deriving DecidableEq, Repr

/-- The database state seen by `VersionService`. -/
structure Database where
  scripts : List ScriptRec
  scenes : List SceneRec
  versions : List VersionRec
deriving DecidableEq, Repr

/-- SQLAlchemy's `Result.scalar_one_or_none()`: the lone row, `none` when
the query returned no rows, and the `MultipleResultsFound` error when it
returned more than one. -/
def scalarOneOrNone {α : Type} : List α → Except String (Option α)
  | [] => Except.ok none
  | [x] => Except.ok (some x)
  | _ :: _ :: _ => Except.error "MultipleResultsFound"

/-- Insert into a list sorted by descending `version_number`. -/
def insertByNumDesc (v : VersionRec) : List VersionRec → List VersionRec
  | [] => [v]
  | w :: ws =>
    if w.version_number ≤ v.version_number then v :: w :: ws
    else w :: insertByNumDesc v ws

/-- `ORDER BY version_number DESC` as an insertion sort. -/
def sortByNumDesc : List VersionRec → List VersionRec
  | [] => []
  | v :: vs => insertByNumDesc v (sortByNumDesc vs)

/-- Embedding of `VersionService.create_version` (`version_service.py`,
lines 10-90).  The latest-version lookup runs `scalar_one_or_none()` on
the query selecting **all** versions of the script ordered by descending
number (lines 22-27), so it errors whenever the script already has two or
more versions. -/
def create_version (db : Database) (script_id : ℤ)
    (change_description : Option String) (make_current : Bool) :
    Except String (Database × VersionRec) :=
  match scalarOneOrNone (db.scripts.filter (fun s => s.id == script_id)) with
  | Except.error e => Except.error e
  | Except.ok none => Except.error "ValueError: script not found"
  | Except.ok (some script) =>
    match scalarOneOrNone
        (sortByNumDesc (db.versions.filter (fun v => v.script_id == script_id))) with
    | Except.error e => Except.error e
    | Except.ok latest? =>
      let new_version_number :=
        match latest? with
        | some latest => latest.version_number + 1
        | none => 1
      let scenes_data :=
        (db.scenes.filter (fun sc => sc.script_id == script_id)).map sceneToData
      let new_version : VersionRec :=
        { script_id := script_id, version_number := new_version_number,
          title := script.title, content := script.content,
          predicted_rating := script.predicted_rating,
          agg_scores := script.agg_scores, total_scenes := script.total_scenes,
          change_description := change_description, is_current := make_current,
          scenes_data := scenes_data,
          version_metadata := ⟨script.model_version, "manual_save"⟩ }
      let db1 : Database :=
        if make_current then
          { db with
            versions := db.versions.map (fun v =>
              if v.script_id == script_id && v.is_current then
                { v with is_current := false }
              else v),
            scripts := db.scripts.map (fun s =>
              if s.id == script_id then
                { s with current_version := new_version_number }
              else s) }
        else db
      let db2 : Database := { db1 with versions := db1.versions ++ [new_version] }
      Except.ok (db2, new_version)

/-- Embedding of `VersionService.get_version`: the lone version row
matching script and number. -/
def get_version (db : Database) (script_id : ℤ) (version_number : ℕ) :
    Except String (Option VersionRec) :=
  scalarOneOrNone (db.versions.filter (fun v =>
    v.script_id == script_id && v.version_number == version_number))

/-- Embedding of `ScriptService.get_script`: the lone script row with the
given id. -/
def get_script (db : Database) (script_id : ℤ) :
    Except String (Option ScriptRec) :=
  scalarOneOrNone (db.scripts.filter (fun s => s.id == script_id))

/-- Overwriting the script's fields from a version
(`version_service.py`, lines 135-140). -/
def overwriteFromVersion (version : VersionRec) (s : ScriptRec) : ScriptRec :=
  { s with
    title := version.title,
    content := version.content,
    predicted_rating := version.predicted_rating,
    agg_scores := version.agg_scores,
    total_scenes := version.total_scenes,
    current_version := version.version_number }

/-- Embedding of `VersionService.restore_version` (`version_service.py`,
lines 115-154): fetch the target version and the script, snapshot the
current script as a non-current backup via `create_version`, overwrite the
script's fields from the target version, then set `is_current` on every
version of the script to `version_number == target`. -/
def restore_version (db : Database) (script_id : ℤ) (version_number : ℕ) :
    Except String (Database × ScriptRec) :=
  match get_version db script_id version_number with
  | Except.error e => Except.error e
  | Except.ok none => Except.error "ValueError: version not found"
  | Except.ok (some version) =>
    match scalarOneOrNone (db.scripts.filter (fun s => s.id == script_id)) with
    | Except.error e => Except.error e
    | Except.ok none => Except.error "ValueError: script not found"
    | Except.ok (some _script0) =>
      match create_version db script_id
          (some ("Backup before restore to v" ++ toString version_number)) false with
      | Except.error e => Except.error e
      | Except.ok (db1, _) =>
        let db2 : Database := { db1 with
          scripts := db1.scripts.map (fun s =>
            if s.id == script_id then overwriteFromVersion version s else s) }
        let db3 : Database := { db2 with
          versions := db2.versions.map (fun v =>
            if v.script_id == script_id then
              { v with is_current := v.version_number == version_number }
            else v) }
        match scalarOneOrNone
            (db3.scripts.filter (fun s => s.id == script_id)) with
        | Except.ok (some s) => Except.ok (db3, s)
        | Except.ok none => Except.error "ValueError: script not found"
        | Except.error e => Except.error e

/-- A one-script database with no versions. -/
def scriptOne : ScriptRec :=
  { id := 1, title := "t", content := "cur", predicted_rating := "6+",
    agg_scores := [], total_scenes := 0, model_version := "m",
    current_version := 0 }

/-- Version row `n` for script 1, content `old<n>`. -/
def versionRow (n : ℕ) (cur : Bool) : VersionRec :=
  { script_id := 1, version_number := n, title := "t0",
    content := "old" ++ toString n, predicted_rating := "6+",
    agg_scores := [], total_scenes := 0, change_description := none,
    is_current := cur, scenes_data := [],
    version_metadata := ⟨"m", "manual_save"⟩ }

/-- Script 1 with no stored versions. -/
def dbZeroVersions : Database := ⟨[scriptOne], [], []⟩

/-- Script 1 with one stored version (number 1, current). -/
def dbOneVersion : Database := ⟨[scriptOne], [], [versionRow 1 true]⟩

/-- Script 1 with two stored versions (numbers 1 and 2). -/
def dbTwoVersions : Database :=
  ⟨[scriptOne], [], [versionRow 1 false, versionRow 2 true]⟩

/-- C4: the first version created for a script is numbered 1 and the
second 2, but as soon as a script has **two** existing versions,
`create_version`'s latest-version query returns two rows and
`scalar_one_or_none()` raises `MultipleResultsFound` instead of creating
version 3 — the code's query (intended to fetch only the latest row)
contradicts the documented `max(existing) + 1` behaviour. -/
theorem create_version_numbering_and_failure :
    (create_version dbZeroVersions 1 none true).map
      (fun p => p.2.version_number) = Except.ok 1 ∧
    (create_version dbOneVersion 1 none true).map
      (fun p => p.2.version_number) = Except.ok 2 ∧
    create_version dbTwoVersions 1 none true =
      Except.error "MultipleResultsFound" :=
  ⟨rfl, rfl, rfl⟩

theorem length_insertByNumDesc (v : VersionRec) (l : List VersionRec) :
    (insertByNumDesc v l).length = l.length + 1 := by
  induction l with
  | nil => rfl
  | cons w ws ih => by_cases h : w.version_number ≤ v.version_number <;>
      simp [insertByNumDesc, h, ih]

theorem length_sortByNumDesc (l : List VersionRec) :
    (sortByNumDesc l).length = l.length := by
  induction l with
  | nil => rfl
  | cons v vs ih => simp [sortByNumDesc, length_insertByNumDesc, ih]

theorem scalarOneOrNone_error_of_two {α : Type} (l : List α)
    (h : 2 ≤ l.length) :
    scalarOneOrNone l = Except.error "MultipleResultsFound" := by
  match l, h with
  | x :: y :: rest, _ => rfl

theorem overwriteFromVersion_id (v : VersionRec) (s : ScriptRec) :
    (overwriteFromVersion v s).id = s.id := rfl

/-- Filtering by script id commutes with the restore overwrite map,
because overwriting preserves `id`. -/
theorem filter_overwrite_map (sid : ℤ) (v : VersionRec) (l : List ScriptRec) :
    ((l.map (fun s => if s.id == sid then overwriteFromVersion v s else s)).filter
      (fun s => s.id == sid)) =
    (l.filter (fun s => s.id == sid)).map (fun s => overwriteFromVersion v s) := by
  induction l with
  | nil => rfl
  | cons a t ih =>
    cases hab : (a.id == sid) with
    | true =>
      simp only [List.map_cons, List.filter_cons, hab, overwriteFromVersion_id,
        if_true]
      rw [ih]
    | false =>
      simp only [List.map_cons, List.filter_cons, hab, overwriteFromVersion_id,
        Bool.false_eq_true, if_false]
      exact ih

/-- C5: whenever `restore_version db sid vn` succeeds with new state `db'`
and returned script `s'`, (a) `get_script` now returns a script whose
content is the target version's content, (b) `db'` holds a non-current
backup version, numbered above every pre-existing version of the script,
whose content is the script's pre-restore content, and (c) among the
script's versions exactly the restored number `vn` has `is_current`. -/
theorem restore_version_round_trip (db db' : Database) (sid : ℤ) (vn : ℕ)
    (s' : ScriptRec)
    (h : restore_version db sid vn = Except.ok (db', s')) :
    ∃ v s0,
      get_version db sid vn = Except.ok (some v) ∧
      get_script db sid = Except.ok (some s0) ∧
      get_script db' sid = Except.ok (some s') ∧
      s'.content = v.content ∧
      (∃ b, b ∈ db'.versions ∧ b.script_id = sid ∧ b.is_current = false ∧
        b.content = s0.content ∧
        ∀ w ∈ db.versions, w.script_id = sid →
          w.version_number < b.version_number) ∧
      (∀ w ∈ db'.versions, w.script_id = sid →
        (w.is_current = true ↔ w.version_number = vn)) := by
  rw [restore_version, get_version] at h
  cases hlv : db.versions.filter (fun w => w.script_id == sid &&
      w.version_number == vn) with
  | nil =>
    rw [hlv] at h
    simp [scalarOneOrNone] at h
  | cons v tl =>
    cases tl with
    | cons v2 rest =>
      rw [hlv] at h
      simp [scalarOneOrNone] at h
    | nil =>
    rw [hlv] at h
    have hv_mem : v ∈ db.versions.filter (fun w => w.script_id == sid &&
        w.version_number == vn) := by
      rw [hlv]; exact List.mem_singleton.mpr rfl
    have hv_in : v ∈ db.versions := (List.mem_filter.mp hv_mem).1
    have hv_pred := (List.mem_filter.mp hv_mem).2
    have hv_sid : v.script_id = sid :=
      eq_of_beq ((Bool.and_eq_true _ _).mp hv_pred).1
    have hv_num : v.version_number = vn :=
      eq_of_beq ((Bool.and_eq_true _ _).mp hv_pred).2
    subst hv_num
    cases hls : db.scripts.filter (fun s => s.id == sid) with
    | nil =>
      rw [create_version, hls] at h
      simp [scalarOneOrNone] at h
    | cons s0 tl2 =>
      cases tl2 with
      | cons s02 rest2 =>
        rw [create_version, hls] at h
        simp [scalarOneOrNone] at h
      | nil =>
      cases hla : db.versions.filter (fun w => w.script_id == sid) with
      | nil =>
        exfalso
        have hv2 : v ∈ db.versions.filter (fun w => w.script_id == sid) :=
          List.mem_filter.mpr ⟨hv_in, by simp [hv_sid]⟩
        rw [hla] at hv2
        exact List.not_mem_nil v hv2
      | cons w1 tl3 =>
        cases tl3 with
        | cons w2 rest3 =>
          exfalso
          rw [create_version, hls, hla] at h
          rw [scalarOneOrNone_error_of_two (sortByNumDesc (w1 :: w2 :: rest3))
            (by rw [length_sortByNumDesc]; simp)] at h
          simp [scalarOneOrNone] at h
        | nil =>
        have hw1 : w1 = v := by
          have hv2 : v ∈ db.versions.filter (fun w => w.script_id == sid) :=
            List.mem_filter.mpr ⟨hv_in, by simp [hv_sid]⟩
          rw [hla] at hv2
          exact (List.mem_singleton.mp hv2).symm
        subst hw1
        rw [create_version, hls, hla] at h
        simp only [scalarOneOrNone, sortByNumDesc, insertByNumDesc,
          filter_overwrite_map, hls, List.map_cons, List.map_nil,
          Bool.false_eq_true, if_false, Except.ok.injEq, Prod.mk.injEq] at h
        obtain ⟨hdb, hs⟩ := h
        subst hdb
        refine ⟨w1, s0, ?_, ?_, ?_, ?_, ?_, ?_⟩
        · simp [get_version, hlv, scalarOneOrNone]
        · simp [get_script, hls, scalarOneOrNone]
        · simp only [get_script, filter_overwrite_map, hls, List.map_cons,
            List.map_nil, scalarOneOrNone]
          rw [hs]
        · rw [← hs]; rfl
        · refine ⟨{ script_id := sid,
                    version_number := w1.version_number + 1,
                    title := s0.title,
                    content := s0.content,
                    predicted_rating := s0.predicted_rating,
                    agg_scores := s0.agg_scores,
                    total_scenes := s0.total_scenes,
                    change_description := some ("Backup before restore to v" ++
                      toString w1.version_number),
                    is_current := (w1.version_number + 1 == w1.version_number),
                    scenes_data := (db.scenes.filter
                      (fun sc => sc.script_id == sid)).map sceneToData,
                    version_metadata := ⟨s0.model_version, "manual_save"⟩ },
            ?_, rfl, ?_, rfl, ?_⟩
          · simp only [List.mem_map]
            refine ⟨{ script_id := sid,
                      version_number := w1.version_number + 1,
                      title := s0.title,
                      content := s0.content,
                      predicted_rating := s0.predicted_rating,
                      agg_scores := s0.agg_scores,
                      total_scenes := s0.total_scenes,
                      change_description := some ("Backup before restore to v" ++
                        toString w1.version_number),
                      is_current := false,
                      scenes_data := (db.scenes.filter
                        (fun sc => sc.script_id == sid)).map sceneToData,
                      version_metadata := ⟨s0.model_version, "manual_save"⟩ },
              List.mem_append_right _ (List.mem_singleton.mpr rfl), ?_⟩
            simp
          · simp
          · intro w hw hwsid
            have hv2 : w ∈ db.versions.filter (fun u => u.script_id == sid) :=
              List.mem_filter.mpr ⟨hw, by simp [hwsid]⟩
            rw [hla] at hv2
            rw [List.mem_singleton.mp hv2]
            simp
        · intro w hw hwsid
          simp only [List.mem_map] at hw
          obtain ⟨u, hu, rfl⟩ := hw
          by_cases husid : u.script_id = sid
          · simp only [husid, beq_self_eq_true, if_true]
            constructor
            · intro hcur
              exact eq_of_beq hcur
            · intro hnum
              simp [hnum]
          · exfalso
            rw [if_neg (by simp [husid])] at hwsid
            exact husid hwsid

/-- The script row after restoring version 1 of script 1. -/
def restoredScript : ScriptRec :=
  { id := 1, title := "t0", content := "old1", predicted_rating := "6+",
    agg_scores := [], total_scenes := 0, model_version := "m",
    current_version := 1 }

/-- The database state after `restore_version dbOneVersion 1 1`. -/
def dbRestored : Database :=
  ⟨[restoredScript], [],
   [versionRow 1 true,
    { script_id := 1, version_number := 2, title := "t", content := "cur",
      predicted_rating := "6+", agg_scores := [], total_scenes := 0,
      change_description := some "Backup before restore to v1",
      is_current := false, scenes_data := [],
      version_metadata := ⟨"m", "manual_save"⟩ }]⟩

/-- Witness for C5: the round-trip conclusions at the concrete one-version
database, with the successful restore discharged by computation. -/
theorem restore_version_round_trip_witness :
    ∃ v s0,
      get_version dbOneVersion 1 1 = Except.ok (some v) ∧
      get_script dbOneVersion 1 = Except.ok (some s0) ∧
      get_script dbRestored 1 = Except.ok (some restoredScript) ∧
      restoredScript.content = v.content ∧
      (∃ b, b ∈ dbRestored.versions ∧ b.script_id = 1 ∧ b.is_current = false ∧
        b.content = s0.content ∧
        ∀ w ∈ dbOneVersion.versions, w.script_id = 1 →
          w.version_number < b.version_number) ∧
      (∀ w ∈ dbRestored.versions, w.script_id = 1 →
        (w.is_current = true ↔ w.version_number = 1)) :=
  restore_version_round_trip dbOneVersion dbRestored 1 1 restoredScript (by rfl)

/-! ## Scene segmentation (claim C7)

`parse_script_to_scenes` (`pipeline.py`, lines 143-165) splits the raw
text with
`re.split(r"(?=(?:INT\.|EXT\.|scene_heading\s*:|SCENE HEADING\s*:))", txt, flags=re.I)`.
The pattern is a zero-width lookahead with **no line-start anchor** (no `^`
and no `re.M`), so the scanner splits at *every* position where a marker
begins — also in the middle of a line or of a word (e.g. inside
`paint.`). -/

/-- `\s*` followed by a colon: the tail of the scene-heading marker. -/
def colonAfterWs : List Char → Bool
  | [] => false
  | c :: rest =>
    if c = ':' then true else if isPyWs c then colonAfterWs rest else false

/-- Does the already-lowercased text begin with one of the split markers
(`int.`, `ext.`, `scene_heading\s*:`, `scene heading\s*:`)? -/
def markerAt (l : List Char) : Bool :=
  "int.".toList.isPrefixOf l || "ext.".toList.isPrefixOf l ||
  ("scene_heading".toList.isPrefixOf l && colonAfterWs (l.drop 13)) ||
  ("scene heading".toList.isPrefixOf l && colonAfterWs (l.drop 13))

/-- The case-insensitive split test at one position of the original
text. -/
def lookAt (l : List Char) : Bool := markerAt (l.map toLowerChar)

/-- The scanner of `re.split` on the zero-width lookahead: positions are
tested left to right; a match emits the accumulated chunk (empty at
position 0) and the scan resumes one character on, so every position is
tested exactly once. -/
def reSplitAux : List Char → List Char → List (List Char)
  | acc, [] => [acc.reverse]
  | acc, c :: rest =>
    if lookAt (c :: rest) then acc.reverse :: reSplitAux [c] rest
    else reSplitAux (c :: acc) rest

/-- The parts list produced by the `re.split` call of
`parse_script_to_scenes`. -/
def re_split (txt : List Char) : List (List Char) := reSplitAux [] txt

/-- Python `str.strip()` (ASCII whitespace). -/
def stripChars (l : List Char) : List Char :=
  ((l.dropWhile isPyWs).reverse.dropWhile isPyWs).reverse

/-- Up to `n` characters, stopping at a newline (which `.` does not
match). -/
def takeNoNewline : ℕ → List Char → List Char
  | 0, _ => []
  | _, [] => []
  | n + 1, c :: rest => if c = '\n' then [] else c :: takeNoNewline n rest

/-- Does the chunk begin with `INT.` or `EXT.` (case-insensitive)? -/
def headingMarker (l : List Char) : Bool :=
  "int.".toList.isPrefixOf (l.map toLowerChar) ||
  "ext.".toList.isPrefixOf (l.map toLowerChar)

/-- The heading of a chunk
(`re.match(r"((?:INT\.|EXT\.).{0,120})", text, re.I)`, stripped): the
leading `INT.`/`EXT.` plus up to 120 further characters of its line when
the chunk starts with a marker, else the synthesized `scene_<idx>`. -/
def headingOf (idx : ℕ) (t : List Char) : List Char :=
  if headingMarker t then stripChars (t.take 4 ++ takeNoNewline 120 (t.drop 4))
  else ("scene_" ++ toString idx).toList

/-- A parsed scene: dense zero-based id, heading, body text. -/
structure Scene where
  scene_id : ℕ
  heading : List Char
  text : List Char
deriving DecidableEq, Repr

/-- The chunk loop of `parse_script_to_scenes` (`pipeline.py`, lines
153-163): strip each chunk, skip empties, attach the heading, and assign
`scene_id` as a dense index incremented only on emitted scenes. -/
def scenesFromParts : ℕ → List (List Char) → List Scene
  | _, [] => []
  | idx, p :: rest =>
    let t := stripChars p
    if t = [] then scenesFromParts idx rest
    else ⟨idx, headingOf idx t, t⟩ :: scenesFromParts (idx + 1) rest

/-- Embedding of `RatingPipeline.parse_script_to_scenes` (`pipeline.py`,
lines 143-165): fewer than five parts give the single `full_text` scene,
otherwise the chunk loop runs. -/
def parse_script_to_scenes (txt : List Char) : List Scene :=
  let parts := re_split txt
  if parts.length < 5 then [⟨0, "full_text".toList, txt⟩]
  else scenesFromParts 0 parts

/-- All positions of the text where the split marker matches — with no
line-start requirement. -/
def markerPositions (txt : List Char) : List ℕ :=
  (List.range txt.length).filter (fun i => lookAt (txt.drop i))

/-- The positions the claim allows a split at: marker occurrences at the
start of a line (position 0 or just after a newline). -/
def lineStartMarkerPositions (txt : List Char) : List ℕ :=
  (List.range txt.length).filter (fun i =>
    (decide (i = 0) || decide (txt.getD (i - 1) ' ' = '\n')) &&
      lookAt (txt.drop i))

/-- The global offsets of the boundaries between consecutive parts. -/
def splitOffsets : List (List Char) → List ℕ
  | [] => []
  | [_] => []
  | x :: y :: rest => x.length :: (splitOffsets (y :: rest)).map (· + x.length)

/-- The spec-side reading of the chunk loop: enumerate the non-empty
stripped chunks from 0 and attach the heading rule. -/
def chunkScenesSpec (parts : List (List Char)) : List Scene :=
  (List.enumFrom 0 ((parts.map stripChars).filter (fun t => !t.isEmpty))).map
    (fun pr => ⟨pr.1, headingOf pr.1 pr.2, pr.2⟩)

theorem reSplitAux_flatten (l : List Char) :
    ∀ acc, (reSplitAux acc l).flatten = acc.reverse ++ l := by
  induction l with
  | nil => intro acc; simp [reSplitAux]
  | cons c rest ih =>
    intro acc
    by_cases hc : lookAt (c :: rest) = true
    · simp [reSplitAux, hc, ih]
    · simp [reSplitAux, hc, ih]

/-- The parts of `re_split` concatenate back to the input text. -/
theorem re_split_flatten (txt : List Char) : (re_split txt).flatten = txt := by
  simpa using reSplitAux_flatten txt []

theorem reSplitAux_ne_nil (l : List Char) : ∀ acc, reSplitAux acc l ≠ [] := by
  induction l with
  | nil => intro acc; simp [reSplitAux]
  | cons c rest ih =>
    intro acc
    by_cases hc : lookAt (c :: rest) = true <;> simp [reSplitAux, hc, ih]

theorem splitOffsets_cons (x : List Char) (ps : List (List Char))
    (hps : ps ≠ []) :
    splitOffsets (x :: ps) = x.length :: (splitOffsets ps).map (· + x.length) := by
  match ps, hps with
  | y :: rest, _ => rfl

theorem markerPositions_cons (c : Char) (rest : List Char) :
    markerPositions (c :: rest) =
    (if lookAt (c :: rest) then [0] else []) ++
      (markerPositions rest).map (· + 1) := by
  unfold markerPositions
  rw [show (c :: rest).length = rest.length + 1 from rfl,
    List.range_succ_eq_map, List.filter_cons, List.filter_map]
  by_cases hc : lookAt (c :: rest) = true <;>
    simp [hc, Function.comp, Nat.succ_eq_add_one] <;> rfl

theorem splitOffsets_reSplitAux (l : List Char) :
    ∀ acc, splitOffsets (reSplitAux acc l) =
      (markerPositions l).map (· + acc.length) := by
  induction l with
  | nil => intro acc; simp [reSplitAux, splitOffsets, markerPositions]
  | cons c rest ih =>
    intro acc
    rw [markerPositions_cons]
    by_cases hc : lookAt (c :: rest) = true
    · rw [show reSplitAux acc (c :: rest) =
          acc.reverse :: reSplitAux [c] rest by simp [reSplitAux, hc]]
      rw [splitOffsets_cons _ _ (reSplitAux_ne_nil rest [c]), ih,
        List.length_reverse]
      simp [hc, List.map_map, Function.comp]
    · rw [show reSplitAux acc (c :: rest) = reSplitAux (c :: acc) rest by
          simp [reSplitAux, hc]]
      rw [ih]
      have hfun : (fun i => i + (c :: acc).length) =
          (fun i => (i + 1) + acc.length) := by
        funext i
        simp [List.length_cons]
        omega
      rw [hfun]
      simp [hc, List.map_map, Function.comp]
      exact fun a _ => by omega

/-- The boundaries of the parts of `re_split` are exactly the positions
where the split marker matches — anywhere in a line, not only at line
starts. -/
theorem re_split_offsets (txt : List Char) :
    splitOffsets (re_split txt) = markerPositions txt := by
  have h := splitOffsets_reSplitAux txt []
  simpa using h

theorem scenesFromParts_eq (ps : List (List Char)) :
    ∀ idx, scenesFromParts idx ps =
      (List.enumFrom idx ((ps.map stripChars).filter (fun t => !t.isEmpty))).map
        (fun pr => ⟨pr.1, headingOf pr.1 pr.2, pr.2⟩) := by
  induction ps with
  | nil => intro idx; rfl
  | cons p rest ih =>
    intro idx
    by_cases hp : stripChars p = []
    · simp [scenesFromParts, hp, ih]
    · simp [scenesFromParts, hp, ih, List.isEmpty_iff]

/-- C7 (amended): the segmenter splits at **every** position where `INT.`,
`EXT.`, `scene_heading:` or `SCENE HEADING:` occurs (case-insensitive),
with no line-start requirement: the parts concatenate back to the text and
their boundaries are exactly the marker positions; fewer than five parts
give the whole text as one scene with heading `full_text`; otherwise the
non-empty stripped chunks are enumerated densely from 0, with heading the
stripped `INT.`/`EXT.` match of up to 120 further characters, or
`scene_<index>` when absent. -/
theorem parse_script_to_scenes_spec (txt : List Char) :
    (re_split txt).flatten = txt ∧
    splitOffsets (re_split txt) = markerPositions txt ∧
    ((re_split txt).length < 5 →
      parse_script_to_scenes txt = [⟨0, "full_text".toList, txt⟩]) ∧
    (¬ (re_split txt).length < 5 →
      parse_script_to_scenes txt = chunkScenesSpec (re_split txt)) := by
  refine ⟨re_split_flatten txt, re_split_offsets txt, ?_, ?_⟩
  · intro h
    simp [parse_script_to_scenes, h]
  · intro h
    simp [parse_script_to_scenes, h, chunkScenesSpec, scenesFromParts_eq]

/-- Witness for C7 (amended): a short markerless text is one `full_text`
scene. -/
theorem parse_script_to_scenes_spec_witness :
    parse_script_to_scenes "hello".toList =
      [⟨0, "full_text".toList, "hello".toList⟩] :=
  (parse_script_to_scenes_spec "hello".toList).2.2.1 (by decide)

/-- A text whose only marker occurrences sit mid-word (`int.` inside
`paint.`), never at a line start. -/
def cexText : List Char := "paint. paint. paint. paint. paint.".toList

/-- C7 counterexample: `cexText` has **no** marker at the start of any
line, so under the claim it would be a single `full_text` scene; but the
unanchored pattern matches at the five mid-word `int.` occurrences, and
the code returns six scenes. -/
theorem parse_script_splits_mid_line :
    lineStartMarkerPositions cexText = [] ∧
    (markerPositions cexText).length = 5 ∧
    (parse_script_to_scenes cexText).length = 6 ∧
    parse_script_to_scenes cexText ≠ [⟨0, "full_text".toList, cexText⟩] := by
  refine ⟨?_, ?_, ?_, ?_⟩ <;> decide

end Wink
